import Mathlib

/-!
Formal model of the agent-gui snapshot and reference-resolution engine
(src/tools/agent-gui/gui_ops.py) together with theorems settling the
behavioural properties stated in its specification.

The Python source is shallowly embedded: the accessibility tree that the
platform reports is a value of an inductive type carrying exactly the
attributes the code reads, the session (ref counter and element cache) is
threaded explicitly, and provider calls such as AXUIElementPerformAction
are function parameters.  Machine-level concerns (PyObjC handles, real
clocks) are abstracted as documented at each definition.
-/

/- ---------------------------------------------------------------------
String helpers.

Python uses str.replace, str.lower and str.title; the Lean core versions
of replace and toLower are not kernel-reducible, so character-list
versions are defined here with the same behaviour on the strings the
program manipulates.
--------------------------------------------------------------------- -/

/-- Lowercase every character of a character list (model of str.lower). -/
def lowerChars : List Char → List Char := List.map Char.toLower

/-- Remove every occurrence of the two-character pattern AX, scanning left
to right, exactly as Python str.replace removes non-overlapping
occurrences. -/
def stripAXChars : List Char → List Char
  | 'A' :: 'X' :: rest => stripAXChars rest
  | c :: rest => c :: stripAXChars rest
  | [] => []

/-- Model of the idiom s.replace("AX", "").lower() used throughout
gui_ops.py for roles, subroles and action names. -/
def axStrip (s : String) : String := String.mk (lowerChars (stripAXChars s.data))

/-- Model of Python str.lower. -/
def lowerStr (s : String) : String := String.mk (lowerChars s.data)

/-- Helper for pyTitle: uppercase a character after a non-alphabetic
character, lowercase it after an alphabetic one. -/
def pyTitleAux : List Char → Bool → List Char
  | [], _ => []
  | c :: cs, prevAlpha =>
    (if prevAlpha then c.toLower else c.toUpper) :: pyTitleAux cs c.isAlpha

/-- Model of Python str.title, used by click and get for unmapped
action and attribute names (f-string AX{action.title()}). -/
def pyTitle (s : String) : String := String.mk (pyTitleAux s.data false)

/-- Python truthiness-based or on strings: a or b keeps a when a is
non-empty, used by the label fallback chain of _element_to_dict. -/
def pyOrStr (a b : String) : String := if a ≠ "" then a else b

/- ---------------------------------------------------------------------
Data model of the live accessibility tree and of the captured snapshot
nodes (gui_ops.py lines 278 to 391).
--------------------------------------------------------------------- -/

/-- Primitive attribute value as the code distinguishes them: AXValue may
be a string, a number or a boolean.  The str() conversion applied by the
source to non-primitive objects is modelled as already having produced a
string. -/
inductive PyPrim where
  | pstr (s : String)
  | pint (n : Int)
  | pbool (b : Bool)
deriving DecidableEq

/-- Attributes of one live AXUIElement as read by _element_to_dict via
_get_attribute.  A missing string attribute is the empty string (the
source immediately applies an or-chain with empty-string default); other
missing attributes are none.  Position and size conversion failures
(the try/except around int(position.x)) are folded into none. -/
structure AXAttrs where
  role : String := ""
  subrole : String := ""
  title : String := ""
  description : String := ""
  axlabel : String := ""
  value : Option PyPrim := none
  enabled : Option Bool := none
  focused : Option Bool := none
  position : Option (Int × Int) := none
  size : Option (Int × Int) := none
  actions : List String := []
deriving DecidableEq

/-- One live accessibility element: its attributes and its AXChildren. -/
inductive AXElement where
  | mk (attrs : AXAttrs) (children : List AXElement)

/-- Attribute record of a live element. -/
def AXElement.attrs : AXElement → AXAttrs
  | .mk a _ => a

/-- Children of a live element (the AXChildren attribute). -/
def AXElement.children : AXElement → List AXElement
  | .mk _ cs => cs

/-- Keys of the element dictionary built by _element_to_dict, minus the
two bookkeeping keys _children_data and _has_interactive.  An Option
field is none exactly when the source leaves the key out of the dict;
the children field holds the list of child refs when present. -/
structure NodeAttrs where
  ref : String := ""
  role : String := ""
  subrole : Option String := none
  label : Option String := none
  value : Option PyPrim := none
  enabled : Option Bool := none
  focused : Bool := false
  position : Option (Int × Int) := none
  size : Option (Int × Int) := none
  actions : List String := []
  children : Option (List String) := none
deriving DecidableEq

/-- Full element dictionary as _element_to_dict returns it: the plain
keys, the nested _children_data dictionaries, and _has_interactive. -/
inductive EDict where
  | mk (attrs : NodeAttrs) (childrenData : List EDict) (hasInteractive : Bool)

/-- Plain keys of an element dictionary. -/
def EDict.attrs : EDict → NodeAttrs
  | .mk a _ _ => a

/-- Nested _children_data dictionaries. -/
def EDict.childrenData : EDict → List EDict
  | .mk _ c _ => c

/-- The _has_interactive marker. -/
def EDict.hasInteractive : EDict → Bool
  | .mk _ _ h => h

/-- In-memory part of GUISession: the _element_cache dict (insertion
ordered, modelled as an association list) and the _ref_counter. -/
structure WSess where
  cache : List (String × AXElement)
  ctr : Nat

/-- A fresh GUISession as __init__ builds it: empty cache, counter 0. -/
def wsess0 : WSess := ⟨[], 0⟩

/-- GUISession.get_ref (gui_ops.py lines 105 to 110): increment the
counter, form the ref string, record the element in the cache. -/
def get_ref (s : WSess) (e : AXElement) : String × WSess :=
  let n := s.ctr + 1
  let ref := "@g" ++ toString n
  (ref, ⟨s.cache ++ [(ref, e)], n⟩)

/-- GUISession.clear_cache (gui_ops.py lines 118 to 121): empty cache and
reset the ref counter to zero. -/
def clear_cache (_s : WSess) : WSess := ⟨[], 0⟩

/-- The interactive_roles set of _element_to_dict (gui_ops.py lines 288
to 293). -/
def interactive_roles : List String :=
  ["AXButton", "AXTextField", "AXTextArea", "AXCheckBox", "AXRadioButton",
   "AXPopUpButton", "AXComboBox", "AXSlider", "AXStepper", "AXTable",
   "AXList", "AXOutline", "AXRow", "AXCell", "AXMenuItem", "AXMenu",
   "AXLink", "AXTab", "AXTabGroup", "AXDisclosureTriangle"]

/-- The plain keys of the dictionary _element_to_dict builds for one
element (gui_ops.py lines 297 to 349): role and subrole stripped and
lowercased, label from the AXTitle / AXDescription / AXLabel or-chain,
conditional keys become none when the source omits them. -/
def mkOwnAttrs (a : AXAttrs) (ref : String) (childRefs : Option (List String)) : NodeAttrs :=
  { ref := ref
    role := if a.role ≠ "" then axStrip a.role else ""
    subrole := if a.subrole ≠ "" then some (axStrip a.subrole) else none
    label :=
      if pyOrStr a.title (pyOrStr a.description a.axlabel) ≠ "" then
        some (pyOrStr a.title (pyOrStr a.description a.axlabel))
      else none
    value := a.value
    enabled := a.enabled
    focused := a.focused == some true
    position := a.position
    size := a.size
    actions := a.actions.map axStrip
    children := childRefs }

mutual
/-- MacOSGUI._element_to_dict (gui_ops.py lines 278 to 376).  Returns
none past the depth bound; otherwise mints a ref (before descending, as
the source does), recurses into AXChildren when the list is non-empty
and depth is strictly below max_depth, applies the interactive filter to
the children, and computes _has_interactive from the retained children. -/
def elementToDict : AXElement → Nat → Nat → Bool → WSess → Option EDict × WSess
  | .mk a children, depth, maxDepth, interactiveOnly, s =>
    if depth > maxDepth then (none, s)
    else
      let isInteractive := interactive_roles.contains a.role
      let r := get_ref s (.mk a children)
      let cres :=
        if children.isEmpty = false ∧ depth < maxDepth then
          childrenToDicts children (depth + 1) maxDepth interactiveOnly r.2
        else ([], r.2)
      let childDicts := cres.1
      let childRefs :=
        if childDicts.isEmpty = false then some (childDicts.map fun d => d.attrs.ref)
        else none
      let hasInt := isInteractive || childDicts.any (fun d => d.hasInteractive)
      (some (.mk (mkOwnAttrs a r.1 childRefs) childDicts hasInt), cres.2)

/-- The child loop of _element_to_dict (gui_ops.py lines 354 to 366):
convert each child in provider order; with interactive_only a child is
kept only when it has interactive descendants or its stripped role is in
the stripped interactive role list. -/
def childrenToDicts : List AXElement → Nat → Nat → Bool → WSess → List EDict × WSess
  | [], _, _, _, s => ([], s)
  | c :: rest, depth, maxDepth, io, s =>
    let r1 := elementToDict c depth maxDepth io s
    let keep : List EDict :=
      match r1.1 with
      | none => []
      | some d =>
        if io then
          if d.hasInteractive || (interactive_roles.map axStrip).contains d.attrs.role
          then [d] else []
        else [d]
    let r2 := childrenToDicts rest depth maxDepth io r1.2
    (keep ++ r2.1, r2.2)
end

mutual
/-- MacOSGUI._flatten_elements (gui_ops.py lines 378 to 391): the node
copy without _children_data and _has_interactive, followed by the
flattening of each child. -/
def flatten_elements : EDict → List NodeAttrs
  | .mk a cds _ => a :: flattenList cds

/-- Flattening of a list of element dictionaries in order. -/
def flattenList : List EDict → List NodeAttrs
  | [] => []
  | d :: rest => flatten_elements d ++ flattenList rest
end

/-- The elements list built by MacOSGUI.snapshot (gui_ops.py lines 443
to 445): flatten the tree when the walk produced one, else empty. -/
def snapshotElements (e : AXElement) (maxDepth : Nat) (io : Bool) (s : WSess) :
    List NodeAttrs :=
  match (elementToDict e 0 maxDepth io s).1 with
  | some t => flatten_elements t
  | none => []

/- ---------------------------------------------------------------------
Persisted session state (GUISession.state, gui_ops.py lines 74 to 103)
and the session-visible effects of MacOSGUI.snapshot.
--------------------------------------------------------------------- -/

/-- The keys of the session state dictionary that _load_state defaults
and the commands mutate.  History entries are (action, timestamp)
pairs. -/
structure SessionState where
  app : Option String := none
  pid : Option Int := none
  window : Option String := none
  last_snapshot : Option String := none
  history : List (String × String) := []
deriving DecidableEq

/-- GUISession.set_app (gui_ops.py lines 91 to 94): record app name and
pid and save. -/
def set_app (st : SessionState) (appName : String) (pid : Int) : SessionState :=
  { st with app := some appName, pid := some pid }

/-- Session-level effects and outputs of MacOSGUI.snapshot (gui_ops.py
lines 393 to 475) on the happy path, once the target app (appName, pid)
and window root are fixed and the timestamp ts is read: clear the ref
cache, record the app, walk the window, flatten, stamp last_snapshot and
save.  Returns the persisted state, the in-memory session and the
flattened elements of the result dictionary. -/
def snapshotRun (st : SessionState) (s : WSess) (window : AXElement)
    (interactiveOnly : Bool) (maxDepth : Nat) (appName : String) (pid : Int)
    (ts : String) : SessionState × WSess × List NodeAttrs :=
  let s1 := clear_cache s
  let st1 := set_app st appName pid
  let r := elementToDict window 0 maxDepth interactiveOnly s1
  let elements := match r.1 with | some t => flatten_elements t | none => []
  let st2 := { st1 with last_snapshot := some ts }
  (st2, r.2, elements)

/- ---------------------------------------------------------------------
Demo fixtures: a window containing a single OK button.
--------------------------------------------------------------------- -/

/-- A live button element with title OK. -/
def demoButton : AXElement := .mk { role := "AXButton", title := "OK" } []

/-- A live window whose only child is demoButton. -/
def demoWindow : AXElement := .mk { role := "AXWindow", title := "Main" } [demoButton]

/-- The dictionary entry the walk records for demoButton (second minted
ref). -/
def demoBtnAttrs : NodeAttrs := { ref := "@g2", role := "button", label := some "OK" }

/- ---------------------------------------------------------------------
C6: depth bound of the tree walk.
--------------------------------------------------------------------- -/

/-- C6: walking any tree with max_depth zero returns exactly one
element, the window root recorded without a children key, regardless of
the size of the tree; and in general a node sitting exactly at the depth
boundary is recorded but not descended into. -/
theorem c6_walk_depth_bound (e : AXElement) (io : Bool) (s : WSess) :
    (∃ dd, (elementToDict e 0 0 io s).1 = some dd ∧ dd.childrenData = [] ∧
      dd.attrs = mkOwnAttrs e.attrs ("@g" ++ toString (s.ctr + 1)) none ∧
      snapshotElements e 0 io s = [dd.attrs]) ∧
    (∀ d : Nat, ∃ dd, (elementToDict e d d io s).1 = some dd ∧
      dd.childrenData = [] ∧ dd.attrs.children = none) := by
  obtain ⟨a, children⟩ := e
  constructor
  · refine ⟨.mk (mkOwnAttrs a ("@g" ++ toString (s.ctr + 1)) none) []
        (interactive_roles.contains a.role), ?_, rfl, rfl, ?_⟩
    · simp [elementToDict, get_ref, lt_self_iff_false]
    · simp [snapshotElements, elementToDict, get_ref, lt_self_iff_false,
        flatten_elements, flattenList, EDict.attrs]
  · intro d
    refine ⟨.mk (mkOwnAttrs a ("@g" ++ toString (s.ctr + 1)) none) []
        (interactive_roles.contains a.role), ?_, rfl, rfl⟩
    simp [elementToDict, get_ref, lt_self_iff_false]

/- ---------------------------------------------------------------------
C3: ref numbering across snapshots within one process.
--------------------------------------------------------------------- -/

/-- C3 counterexample: in one process, a first snapshot of demoWindow
mints the refs at-g1 and at-g2; a second snapshot of the same window in
the same process mints the very same ref strings again, because
clear_cache resets the counter.  This falsifies the claim that a ref
string issued in one epoch is never issued again and that numbering does
not restart at 1. -/
theorem c3_ref_reuse_counterexample :
    ((snapshotRun {} wsess0 demoWindow false 10 "Demo" 1 "t1").2.1.cache.map
        Prod.fst = ["@g1", "@g2"]) ∧
    ((snapshotRun {} (snapshotRun {} wsess0 demoWindow false 10 "Demo" 1 "t1").2.1
        demoWindow false 10 "Demo" 1 "t2").2.1.cache.map Prod.fst = ["@g1", "@g2"]) := by
  exact ⟨rfl, rfl⟩

mutual
/-- The walk only appends to the element cache, and whenever the depth
bound admits the node at all, the first appended entry is the node
itself under the next counter value. -/
theorem elementToDict_cache_extend (e : AXElement) (d m : Nat) (io : Bool)
    (s : WSess) :
    ∃ l, (elementToDict e d m io s).2.cache = s.cache ++ l ∧
      (¬ d > m → l.head? = some ("@g" ++ toString (s.ctr + 1), e)) := by
  obtain ⟨a, children⟩ := e
  by_cases hdm : d > m
  · exact ⟨[], by simp [elementToDict, hdm], fun h => absurd hdm h⟩
  · by_cases hc : children.isEmpty = false ∧ d < m
    · obtain ⟨l2, hl2⟩ :=
        childrenToDicts_cache_extend children (d + 1) m io (get_ref s (.mk a children)).2
      refine ⟨("@g" ++ toString (s.ctr + 1), .mk a children) :: l2, ?_, fun _ => rfl⟩
      simp only [elementToDict]
      rw [if_neg hdm, if_pos hc]
      simp only [get_ref] at hl2 ⊢
      simp [hl2, List.append_assoc]
    · refine ⟨[("@g" ++ toString (s.ctr + 1), .mk a children)], ?_, fun _ => rfl⟩
      simp only [elementToDict]
      rw [if_neg hdm, if_neg hc]
      simp [get_ref]

/-- The child loop only appends to the element cache. -/
theorem childrenToDicts_cache_extend (cs : List AXElement) (d m : Nat) (io : Bool)
    (s : WSess) :
    ∃ l, (childrenToDicts cs d m io s).2.cache = s.cache ++ l := by
  match cs with
  | [] => exact ⟨[], by simp [childrenToDicts]⟩
  | c :: rest =>
    obtain ⟨l1, hl1, _⟩ := elementToDict_cache_extend c d m io s
    obtain ⟨l2, hl2⟩ :=
      childrenToDicts_cache_extend rest d m io (elementToDict c d m io s).2
    exact ⟨l1 ++ l2, by simp [childrenToDicts, hl2, hl1, List.append_assoc]⟩
end

/-- C3 amended: the ref counter is reset by clear_cache on every
snapshot, so the refs a snapshot mints do not depend on any earlier
session state, and the first ref of every snapshot is again at-g1:
numbering is per-epoch, not a process-wide monotonic counter. -/
theorem c3_ref_numbering_restarts_amended (st : SessionState) (s s' : WSess)
    (w : AXElement) (io : Bool) (m : Nat) (appName : String) (pid : Int)
    (ts : String) :
    (snapshotRun st s w io m appName pid ts).2.1 =
      (snapshotRun st s' w io m appName pid ts).2.1 ∧
    ((snapshotRun st s w io m appName pid ts).2.1.cache.map Prod.fst).head? =
      some "@g1" := by
  constructor
  · rfl
  · obtain ⟨l, hl, hh⟩ := elementToDict_cache_extend w 0 m io (clear_cache s)
    have hhead := hh (by omega)
    have hcache : (snapshotRun st s w io m appName pid ts).2.1.cache = l := by
      show (elementToDict w 0 m io (clear_cache s)).2.cache = l
      rw [hl]; rfl
    rw [hcache]
    cases l with
    | nil => simp at hhead
    | cons x xs =>
      have hx : x = ("@g" ++ toString ((clear_cache s).ctr + 1), w) := by
        simpa using hhead
      subst hx
      simp only [List.map_cons, List.head?_cons, clear_cache]
      decide

/- ---------------------------------------------------------------------
C4: what snapshot persists.
--------------------------------------------------------------------- -/

/-- C4: the state snapshot persists (via GUISession._save_state) consists
only of app, pid, window, last_snapshot and history; it is the same
record for any two walked trees, so in particular the Ref to
(Locator, ElementNode) table of the new epoch is not serialized at all
and the bindings do not survive the process. -/
theorem c4_snapshot_persists_no_ref_table (st : SessionState) (s : WSess)
    (w₁ w₂ : AXElement) (io : Bool) (m : Nat) (appName : String) (pid : Int)
    (ts : String) :
    (snapshotRun st s w₁ io m appName pid ts).1 =
      { app := some appName, pid := some pid, window := st.window,
        last_snapshot := some ts, history := st.history } ∧
    (snapshotRun st s w₁ io m appName pid ts).1 =
      (snapshotRun st s w₂ io m appName pid ts).1 := by
  exact ⟨rfl, rfl⟩

/- ---------------------------------------------------------------------
C7: the interactive filter only drops nodes.
--------------------------------------------------------------------- -/

/-- Attributes of a recorded node with the per-walk fields (the minted
ref string and the child ref list) blanked, leaving exactly the fields
read from the live element itself. -/
def stripRC (n : NodeAttrs) : NodeAttrs := { n with ref := "", children := none }

/-- Stripping does not touch the role field. -/
theorem stripRC_role (n : NodeAttrs) : (stripRC n).role = n.role := rfl

/-- Stripping does not touch the label field. -/
theorem stripRC_label (n : NodeAttrs) : (stripRC n).label = n.label := rfl

/-- Stripping does not touch the value field. -/
theorem stripRC_value (n : NodeAttrs) : (stripRC n).value = n.value := rfl

/-- Flattening distributes over list append. -/
theorem flattenList_append (l₁ l₂ : List EDict) :
    flattenList (l₁ ++ l₂) = flattenList l₁ ++ flattenList l₂ := by
  induction l₁ with
  | nil => simp [flattenList]
  | cons d rest ih => simp [flattenList, ih]

/-- One-step unfolding of the walk on a node whose children are entered
(non-empty child list, depth strictly below the bound). -/
theorem elementToDict_fst_rec (a : AXAttrs) (children : List AXElement)
    (d m : Nat) (io : Bool) (s : WSess) (hdm : ¬ d > m)
    (hc : children.isEmpty = false ∧ d < m) :
    (elementToDict (.mk a children) d m io s).1 =
      some (.mk
        (mkOwnAttrs a ("@g" ++ toString (s.ctr + 1))
          (if (childrenToDicts children (d + 1) m io
                (get_ref s (.mk a children)).2).1.isEmpty = false
           then some ((childrenToDicts children (d + 1) m io
                (get_ref s (.mk a children)).2).1.map fun x => x.attrs.ref)
           else none))
        (childrenToDicts children (d + 1) m io (get_ref s (.mk a children)).2).1
        (interactive_roles.contains a.role ||
          (childrenToDicts children (d + 1) m io
            (get_ref s (.mk a children)).2).1.any fun x => x.hasInteractive)) := by
  simp only [elementToDict]
  rw [if_neg hdm, if_pos hc]
  rfl

/-- One-step unfolding of the walk on a node whose children are not
entered (empty child list or depth at the bound). -/
theorem elementToDict_fst_leaf (a : AXAttrs) (children : List AXElement)
    (d m : Nat) (io : Bool) (s : WSess) (hdm : ¬ d > m)
    (hc : ¬ (children.isEmpty = false ∧ d < m)) :
    (elementToDict (.mk a children) d m io s).1 =
      some (.mk (mkOwnAttrs a ("@g" ++ toString (s.ctr + 1)) none) []
        (interactive_roles.contains a.role || false)) := by
  simp only [elementToDict]
  rw [if_neg hdm, if_neg hc]
  rfl

mutual
/-- Core of the interactive-filter comparison: on the same live element
at an admissible depth, the filtered and unfiltered walks both record a
node, the two records agree on every element-derived attribute, and the
flattened filtered subtree is a sublist of the flattened unfiltered
subtree once the per-walk ref fields are stripped. -/
theorem walkFilterSub (e : AXElement) (d m : Nat) (s s' : WSess) (hdm : d ≤ m) :
    ∃ dT dF, (elementToDict e d m true s).1 = some dT ∧
      (elementToDict e d m false s').1 = some dF ∧
      stripRC dT.attrs = stripRC dF.attrs ∧
      List.Sublist ((flatten_elements dT).map stripRC)
        ((flatten_elements dF).map stripRC) := by
  obtain ⟨a, children⟩ := e
  have hdm' : ¬ d > m := by omega
  by_cases hc : children.isEmpty = false ∧ d < m
  · have hsub := walkListFilterSub children (d + 1) m
      (get_ref s (.mk a children)).2 (get_ref s' (.mk a children)).2
      (by omega : d + 1 ≤ m)
    refine ⟨_, _, elementToDict_fst_rec a children d m true s hdm' hc,
      elementToDict_fst_rec a children d m false s' hdm' hc, rfl, ?_⟩
    simp only [flatten_elements, List.map_cons]
    exact List.Sublist.cons₂ _ hsub
  · refine ⟨_, _, elementToDict_fst_leaf a children d m true s hdm' hc,
      elementToDict_fst_leaf a children d m false s' hdm' hc, rfl, ?_⟩
    simp only [flatten_elements, flattenList, List.map_cons, List.map_nil]
    exact List.Sublist.cons₂ _ (List.Sublist.refl _)

/-- List version of walkFilterSub over the child loop: stripping refs,
the flattened retained children of the filtered walk form a sublist of
the flattened children of the unfiltered walk. -/
theorem walkListFilterSub (cs : List AXElement) (d m : Nat) (s s' : WSess)
    (hdm : d ≤ m) :
    List.Sublist ((flattenList (childrenToDicts cs d m true s).1).map stripRC)
      ((flattenList (childrenToDicts cs d m false s').1).map stripRC) := by
  match cs with
  | [] => simp [childrenToDicts, flattenList]
  | c :: rest =>
    obtain ⟨dT, dF, hT, hF, hstrip, hsub⟩ := walkFilterSub c d m s s' hdm
    have hrest := walkListFilterSub rest d m (elementToDict c d m true s).2
      (elementToDict c d m false s').2 hdm
    simp only [childrenToDicts, hT, hF, if_true]
    by_cases hk :
      (dT.hasInteractive || (interactive_roles.map axStrip).contains dT.attrs.role) = true
    · rw [if_pos hk]
      simp only [flattenList_append, List.map_append, flattenList,
        List.append_nil]
      exact List.Sublist.append hsub hrest
    · rw [if_neg hk]
      simp only [flattenList_append, List.map_append, flattenList,
        List.append_nil, List.nil_append]
      exact List.Sublist.trans hrest (List.sublist_append_right _ _)
end

/-- C7: every node recorded by the interactive_only walk also occurs in
the unfiltered walk of the same tree, with the same role, label and
value (the minted ref strings and child-ref lists may differ). -/
theorem c7_interactive_filter_monotone (e : AXElement) (m : Nat) (s s' : WSess)
    (nd : NodeAttrs) (h : nd ∈ snapshotElements e m true s) :
    ∃ nd', nd' ∈ snapshotElements e m false s' ∧ stripRC nd' = stripRC nd ∧
      nd'.role = nd.role ∧ nd'.label = nd.label ∧ nd'.value = nd.value := by
  obtain ⟨dT, dF, hT, hF, hstrip, hsub⟩ := walkFilterSub e 0 m s s' (Nat.zero_le m)
  rw [snapshotElements, hT] at h
  rw [snapshotElements, hF]
  have hmem : stripRC nd ∈ (flatten_elements dT).map stripRC :=
    List.mem_map_of_mem stripRC h
  have hmem' := hsub.subset hmem
  obtain ⟨nd', hnd', heq⟩ := List.mem_map.mp hmem'
  refine ⟨nd', hnd', heq, ?_, ?_, ?_⟩
  · rw [← stripRC_role nd', ← stripRC_role nd, heq]
  · rw [← stripRC_label nd', ← stripRC_label nd, heq]
  · rw [← stripRC_value nd', ← stripRC_value nd, heq]

/-- C7 witness: in the demo window, the OK button recorded by the
filtered walk also occurs, with equal role, label and value, in the
unfiltered walk. -/
theorem c7_interactive_filter_monotone_witness :
    ∃ nd', nd' ∈ snapshotElements demoWindow 10 false wsess0 ∧
      stripRC nd' = stripRC demoBtnAttrs ∧
      nd'.role = demoBtnAttrs.role ∧ nd'.label = demoBtnAttrs.label ∧
      nd'.value = demoBtnAttrs.value :=
  c7_interactive_filter_monotone demoWindow 10 wsess0 wsess0 demoBtnAttrs (by decide)

/- ---------------------------------------------------------------------
Exit codes (gui_ops.py lines 36 to 45) and the click dispatch path
(MacOSGUI.click, lines 477 to 509, and the click command of main, lines
1242 to 1253).
--------------------------------------------------------------------- -/

/-- Exit code for success (the default of output). -/
def EXIT_SUCCESS : Nat := 0

/-- Exit code for an application that cannot be found. -/
def EXIT_APP_NOT_FOUND : Nat := 1

/-- Exit code for a missing window. -/
def EXIT_WINDOW_NOT_FOUND : Nat := 2

/-- Exit code for an unresolvable element ref. -/
def EXIT_ELEMENT_NOT_FOUND : Nat := 3

/-- Exit code for a failed action. -/
def EXIT_ACTION_FAILED : Nat := 4

/-- Exit code for a wait timeout. -/
def EXIT_TIMEOUT : Nat := 5

/-- Exit code for missing accessibility permission. -/
def EXIT_PERMISSION_DENIED : Nat := 6

/-- Exit code for a failed vision pipeline. -/
def EXIT_VISION_FAILED : Nat := 7

/-- Exit code for unknown errors. -/
def EXIT_UNKNOWN : Nat := 8

/-- The action_map dictionary of MacOSGUI.click (gui_ops.py lines 484 to
495). -/
def action_map : List (String × String) :=
  [("press", "AXPress"), ("click", "AXPress"), ("showmenu", "AXShowMenu"),
   ("pick", "AXPick"), ("increment", "AXIncrement"), ("decrement", "AXDecrement"),
   ("confirm", "AXConfirm"), ("cancel", "AXCancel"), ("expand", "AXExpand"),
   ("collapse", "AXCollapse")]

/-- Mapping of a logical action name to an AX action name (gui_ops.py
line 497): look the lowercased name up in action_map, else build
AX{action.title()}. -/
def mapAxAction (action : String) : String :=
  match action_map.lookup (lowerStr action) with
  | some ax => ax
  | none => "AX" ++ pyTitle action

/-- GUISession.resolve_ref (gui_ops.py lines 112 to 116): a plain lookup
in the element cache, returning the cached native object unchanged and
none when the ref was never cached.  No attribute of the live element is
consulted. -/
def resolve_ref {α : Type} (cache : List (String × α)) (ref : String) : Option α :=
  cache.lookup ref

/-- Result value of MacOSGUI.click: the source returns None when the ref
does not resolve, a clicked dictionary on success, and an error
dictionary containing the provider error code when both attempts fail. -/
inductive ClickOut where
  | notFound
  | clicked (ref action : String)
  | failed (errCode : Int) (ref : String)
deriving DecidableEq

/-- MacOSGUI.click (gui_ops.py lines 477 to 509).  The provider call
AXUIElementPerformAction is the function parameter perform, returning
the provider error code; cache is the session element cache over an
arbitrary handle type.  Besides the result, the list of AX action names
attempted on the resolved element is returned, so the fallback behaviour
is visible.  The add_history call on success only appends to the bounded
history list and is not modelled here. -/
def clickRun {α : Type} (perform : α → String → Int) (cache : List (String × α))
    (ref action : String) : ClickOut × List String :=
  match resolve_ref cache ref with
  | none => (.notFound, [])
  | some el =>
    let axAction := mapAxAction action
    let err1 := perform el axAction
    let err :=
      if err1 ≠ 0 ∧ axAction ≠ "AXPress" then perform el "AXPress" else err1
    let attempts :=
      if err1 ≠ 0 ∧ axAction ≠ "AXPress" then [axAction, "AXPress"] else [axAction]
    if err = 0 then (.clicked ref action, attempts)
    else (.failed err ref, attempts)

/-- What the click command of main prints: either the dictionary click
returned (via output, which exits with the default success code), or the
error dictionary produced by error when click returned None. -/
inductive CmdOut where
  | result (o : ClickOut)
  | errMsg (msg : String) (code : Nat)
deriving DecidableEq

/-- The click command of main (gui_ops.py lines 1242 to 1253): any
non-None dictionary returned by MacOSGUI.click is passed to output with
the default exit code 0; only a None result takes the error path with
EXIT_ELEMENT_NOT_FOUND. -/
def mainClick {α : Type} (perform : α → String → Int) (cache : List (String × α))
    (ref action : String) : CmdOut × Nat :=
  match (clickRun perform cache ref action).1 with
  | .notFound =>
    (.errMsg ("Element not found: " ++ ref) EXIT_ELEMENT_NOT_FOUND,
      EXIT_ELEMENT_NOT_FOUND)
  | o => (.result o, EXIT_SUCCESS)

/-- GUISession.__init__ (gui_ops.py lines 68 to 72): the element cache of
a new process always starts empty; the state loaded from the session
file is not consulted for any ref binding. -/
def guiSessionInitCache (_loadedState : SessionState) : List (String × Nat) := []

/- ---------------------------------------------------------------------
C1: cross-process ref resolution.
--------------------------------------------------------------------- -/

/-- C1: whatever session state a previous snapshot persisted, a fresh
process invocation starts with an empty element cache, so click on any
ref resolves nothing, performs no press (the attempted-action list is
empty), and exits with the element-not-found code instead of replaying
a locator. -/
theorem c1_cross_process_click_fails (st : SessionState)
    (perform : Nat → String → Int) (ref action : String) :
    resolve_ref (guiSessionInitCache st) ref = none ∧
    clickRun perform (guiSessionInitCache st) ref action = (.notFound, []) ∧
    mainClick perform (guiSessionInitCache st) ref action =
      (.errMsg ("Element not found: " ++ ref) EXIT_ELEMENT_NOT_FOUND,
        EXIT_ELEMENT_NOT_FOUND) :=
  ⟨rfl, rfl, rfl⟩

/- ---------------------------------------------------------------------
C2: no staleness re-check on resolution.
--------------------------------------------------------------------- -/

/-- The role the live provider would currently report for each handle in
the mismatch scenario: handle 7 has become a text field. -/
def currentRoleDemo : Nat → String := fun h => if h = 7 then "AXTextField" else ""

/-- The role recorded for at-g1 when the snapshot minted it: a button. -/
def recordedRoleDemo : String := "AXButton"

/-- C2: the session cache maps at-g1 to handle 7, recorded as a button,
but the live element behind handle 7 now reports role AXTextField.
resolve_ref still returns the cached handle and click presses it and
reports success: no role or label is re-read, no comparison against the
recorded node happens, and no staleness error exists in the code. -/
theorem c2_resolve_no_staleness_check :
    currentRoleDemo 7 ≠ recordedRoleDemo ∧
    resolve_ref [("@g1", (7 : Nat))] "@g1" = some 7 ∧
    clickRun (fun _ _ => (0 : Int)) [("@g1", (7 : Nat))] "@g1" "press" =
      (.clicked "@g1" "press", ["AXPress"]) := by
  refine ⟨by decide, rfl, ?_⟩
  decide

/- ---------------------------------------------------------------------
C5: exit code of a failed click action.
--------------------------------------------------------------------- -/

/-- C5: when the element resolves but the provider rejects both the
requested action and the press fallback (error code 1 here), click
returns its error dictionary, which is truthy, so main passes it to
output and the process exits with EXIT_SUCCESS, not EXIT_ACTION_FAILED:
a failed action terminates with the success exit code. -/
theorem c5_action_failure_exits_success :
    mainClick (fun _ _ => (1 : Int)) [("@g1", (7 : Nat))] "@g1" "press" =
      (.result (.failed 1 "@g1"), EXIT_SUCCESS) ∧
    EXIT_SUCCESS = 0 ∧ EXIT_ACTION_FAILED = 4 := by
  refine ⟨?_, rfl, rfl⟩
  decide

/- ---------------------------------------------------------------------
C8: the single press fallback of the dispatcher.
--------------------------------------------------------------------- -/

/-- C8: once the ref resolves, the dispatcher performs the mapped action;
if that fails and the mapped action is not already AXPress it attempts
AXPress exactly once more, succeeding when the fallback succeeds and
reporting failure only when the fallback also fails; when the mapped
action is AXPress a failure is reported directly.  The attempted-action
lists show no further retry. -/
theorem c8_click_fallback_once {α : Type} (perform : α → String → Int)
    (cache : List (String × α)) (ref action : String) (el : α)
    (hres : resolve_ref cache ref = some el) :
    (perform el (mapAxAction action) = 0 →
      clickRun perform cache ref action =
        (.clicked ref action, [mapAxAction action])) ∧
    (perform el (mapAxAction action) ≠ 0 → mapAxAction action = "AXPress" →
      clickRun perform cache ref action =
        (.failed (perform el (mapAxAction action)) ref, [mapAxAction action])) ∧
    (perform el (mapAxAction action) ≠ 0 → mapAxAction action ≠ "AXPress" →
      perform el "AXPress" = 0 →
      clickRun perform cache ref action =
        (.clicked ref action, [mapAxAction action, "AXPress"])) ∧
    (perform el (mapAxAction action) ≠ 0 → mapAxAction action ≠ "AXPress" →
      perform el "AXPress" ≠ 0 →
      clickRun perform cache ref action =
        (.failed (perform el "AXPress") ref, [mapAxAction action, "AXPress"])) := by
  refine ⟨?_, ?_, ?_, ?_⟩
  · intro h0
    simp [clickRun, hres, h0]
  · intro h1 h2
    rw [h2] at h1
    simp [clickRun, hres, h1, h2]
  · intro h1 h2 h3
    simp [clickRun, hres, h1, h2, h3]
  · intro h1 h2 h3
    simp [clickRun, hres, h1, h2, h3]

/-- C8 witness: a provider that rejects AXShowMenu but accepts the press
fallback makes click succeed after exactly the two attempts. -/
theorem c8_click_fallback_once_witness :
    clickRun (fun _ a => if a = "AXShowMenu" then (1 : Int) else 0)
      [("@g1", (7 : Nat))] "@g1" "showmenu" =
      (.clicked "@g1" "showmenu", ["AXShowMenu", "AXPress"]) := by
  have h := c8_click_fallback_once
    (fun (_ : Nat) (a : String) => if a = "AXShowMenu" then (1 : Int) else 0)
    [("@g1", (7 : Nat))] "@g1" "showmenu" 7 (by decide)
  have h3 := h.2.2.1 (by decide) (by decide) (by decide)
  simpa using h3

/- ---------------------------------------------------------------------
C9: the wait loop (MacOSGUI.wait_for_element, gui_ops.py lines 980 to
1008, and the wait command of main, lines 1541 to 1549).
--------------------------------------------------------------------- -/

/-- The polling loop of wait_for_element.  One loop iteration evaluates
the condition for the current poll index and either returns its found
dictionary or sleeps and retries; every path through the loop body in
the source is either a return of a found dictionary or a fall-through to
the sleep, so the body is modelled as check, a function from the poll
index to an optional result.  The deadline test while time minus start
is below timeout admits a fixed number of iterations (the sleep interval
is constant), modelled as the fuel argument; the source returns None
once the deadline has passed. -/
def waitLoop {α : Type} (check : Nat → Option α) : Nat → Nat → Option α
  | 0, _ => none
  | n + 1, i =>
    match check i with
    | some r => some r
    | none => waitLoop check n (i + 1)

/-- MacOSGUI.wait_for_element: run the polling loop from the first poll;
polls is the number of iterations the deadline admits. -/
def wait_for_element {α : Type} (polls : Nat) (check : Nat → Option α) :
    Option α :=
  waitLoop check polls 0

/-- The dictionary the error helper prints (gui_ops.py lines 57 to 62):
a message and the exit code, and nothing else. -/
structure ErrOut where
  msg : String
  code : Nat
deriving DecidableEq

/-- Output of the wait command of main: the found dictionary on success,
or the error output on timeout. -/
inductive WaitCmdOut (α : Type) where
  | found (r : α)
  | err (e : ErrOut)
deriving DecidableEq

/-- The wait command of main (gui_ops.py lines 1541 to 1549): a non-None
result is printed with exit code 0; a None result produces the fixed
error dictionary Timeout waiting with EXIT_TIMEOUT. -/
def mainWait {α : Type} (polls : Nat) (check : Nat → Option α) :
    WaitCmdOut α × Nat :=
  match wait_for_element polls check with
  | some r => (.found r, EXIT_SUCCESS)
  | none => (.err ⟨"Timeout waiting", EXIT_TIMEOUT⟩, EXIT_TIMEOUT)

/-- A predicate that never matches, for the timeout scenario. -/
def checkNever : Nat → Option Nat := fun _ => none

/-- A predicate that first matches on the second poll. -/
def checkAtOne : Nat → Option Nat := fun j => if j = 1 then some 42 else none

/-- C9 counterexample: on timeout the wait command emits exactly the
fixed dictionary with message Timeout waiting and code 5 — an output
with no elapsed-time component, as shown by the output being identical
whether the deadline admitted three polls or seven. -/
theorem c9_timeout_no_elapsed_counterexample :
    mainWait 3 checkNever = (.err ⟨"Timeout waiting", 5⟩, 5) ∧
    (mainWait 3 checkNever).1 = (mainWait 7 checkNever).1 := by
  decide

/-- If no poll up to the fuel bound matches, the loop returns none. -/
theorem waitLoop_none {α : Type} (check : Nat → Option α) (n i : Nat)
    (h : ∀ j, j < n → check (i + j) = none) : waitLoop check n i = none := by
  induction n generalizing i with
  | zero => rfl
  | succ n ih =>
    have h0 : check i = none := by simpa using h 0 (Nat.succ_pos n)
    rw [waitLoop, h0]
    exact ih (i + 1) fun j hj => by
      have := h (j + 1) (by omega)
      simpa [Nat.add_assoc, Nat.add_comm 1 j] using this

/-- The loop returns the first matching poll. -/
theorem waitLoop_first {α : Type} (check : Nat → Option α) (n i j : Nat)
    (hj : j < n) (hfirst : ∀ k, k < j → check (i + k) = none)
    (hmatch : check (i + j) ≠ none) :
    waitLoop check n i = check (i + j) := by
  induction n generalizing i j with
  | zero => omega
  | succ n ih =>
    cases j with
    | zero =>
      simp only [Nat.add_zero] at hmatch ⊢
      rw [waitLoop]
      cases hcheck : check i with
      | none => exact absurd hcheck hmatch
      | some r => rfl
    | succ j =>
      have h0 : check i = none := by simpa using hfirst 0 (Nat.succ_pos j)
      have heq : ∀ k, i + 1 + k = i + (k + 1) := by omega
      rw [waitLoop, h0]
      show waitLoop check n (i + 1) = check (i + (j + 1))
      rw [← heq j]
      exact ih (i + 1) j (by omega)
        (fun k hk => by rw [heq k]; exact hfirst (k + 1) (by omega))
        (by rw [heq j]; exact hmatch)

/-- C9 amended: wait returns the found dictionary of the first poll at
which the predicate holds and main exits 0; once the deadline passes
with no match it returns None, which main maps to the fixed Timeout
waiting error and EXIT_TIMEOUT, carrying no elapsed time; and the wait
command never exits with any code other than success or the timeout
code, whatever the predicate does. -/
theorem c9_wait_amended {α : Type} (polls : Nat) (check : Nat → Option α) :
    (∀ j r, j < polls → check j = some r → (∀ k, k < j → check k = none) →
      mainWait polls check = (.found r, EXIT_SUCCESS)) ∧
    ((∀ j, j < polls → check j = none) →
      mainWait polls check = (.err ⟨"Timeout waiting", EXIT_TIMEOUT⟩, EXIT_TIMEOUT)) ∧
    ((mainWait polls check).2 = EXIT_SUCCESS ∨
      (mainWait polls check).2 = EXIT_TIMEOUT) := by
  refine ⟨?_, ?_, ?_⟩
  · intro j r hj hr hfirst
    have hne : check (0 + j) ≠ none := by simp [hr]
    have hw := waitLoop_first check polls 0 j hj
      (fun k hk => by simpa using hfirst k hk) hne
    simp [mainWait, wait_for_element, hw, hr]
  · intro hnone
    have hw : wait_for_element polls check = none :=
      waitLoop_none check polls 0 fun j hj => by simpa using hnone j hj
    rw [mainWait, hw]
  · rw [mainWait]
    cases wait_for_element polls check with
    | none => exact Or.inr rfl
    | some r => exact Or.inl rfl

/-- C9 witness: a predicate matching first on the second poll makes wait
succeed with that result and exit 0, and a predicate that never matches
makes the wait command exit with the timeout error. -/
theorem c9_wait_amended_witness :
    mainWait 2 checkAtOne = (.found 42, EXIT_SUCCESS) ∧
    mainWait 3 checkNever = (.err ⟨"Timeout waiting", EXIT_TIMEOUT⟩, EXIT_TIMEOUT) := by
  constructor
  · exact (c9_wait_amended 2 checkAtOne).1 1 42 (by decide) (by decide)
      (fun k hk => by
        have hk0 : k = 0 := by omega
        subst hk0
        decide)
  · exact (c9_wait_amended 3 checkNever).2.1 (fun j hj => rfl)

/- ---------------------------------------------------------------------
C10: totality of session state loading (GUISession._load_state,
gui_ops.py lines 74 to 86).
--------------------------------------------------------------------- -/

/-- JSON value as json.loads can return it: the loaded state is whatever
the file held, not necessarily an object. -/
inductive JVal where
  | null
  | jbool (b : Bool)
  | jnum (n : Int)
  | jstr (s : String)
  | jarr (xs : List JVal)
  | jobj (fields : List (String × JVal))

/-- The default state dictionary _load_state returns when the session
file is absent or unreadable: no app, no pid, no window, no last
snapshot, empty history. -/
def defaultSessionState : JVal :=
  .jobj [("app", .null), ("pid", .null), ("window", .null),
         ("last_snapshot", .null), ("history", .jarr [])]

/-- The session file as _load_state sees it: either SESSION_FILE does
not exist, or it exists with some text content. -/
inductive SessionFileView where
  | absent
  | present (text : String)

/-- GUISession._load_state (gui_ops.py lines 74 to 86).  jsonLoads is
the json.loads parser, none modelling a raised exception; the bare
except around it swallows every parse failure and falls through to the
default dictionary, and a missing file skips parsing entirely. -/
def load_state (jsonLoads : String → Option JVal) : SessionFileView → JVal
  | .absent => defaultSessionState
  | .present txt =>
    match jsonLoads txt with
    | some v => v
    | none => defaultSessionState

/-- C10: for any parser behaviour in which the empty string is not valid
JSON (as for json.loads), loading the session state from an absent file,
an empty file, or any unparseable file yields the default state; the
function is total, so no exception escapes to the public interface. -/
theorem c10_load_state_total (jsonLoads : String → Option JVal)
    (hEmpty : jsonLoads "" = none) :
    load_state jsonLoads .absent = defaultSessionState ∧
    load_state jsonLoads (.present "") = defaultSessionState ∧
    (∀ txt, jsonLoads txt = none →
      load_state jsonLoads (.present txt) = defaultSessionState) := by
  refine ⟨rfl, ?_, ?_⟩
  · rw [load_state, hEmpty]
  · intro txt h
    rw [load_state, h]

/-- C10 witness: with a parser rejecting everything, an absent file and
a concrete unparseable file both load as the default state. -/
theorem c10_load_state_total_witness :
    load_state (fun _ => none) .absent = defaultSessionState ∧
    load_state (fun _ => none) (.present "not json") = defaultSessionState :=
  ⟨(c10_load_state_total (fun _ => none) rfl).1,
   (c10_load_state_total (fun _ => none) rfl).2.2 "not json" rfl⟩
